import Mathlib

/-!
Verification development for the media resolution proxy of the
kold-exercisedb-api repository.  The embedding models the two route
handlers that the `App` class registers for `/api/v1/media/:filename`
(the OPTIONS preflight handler and the GET handler with its filename
guard, local-file read and CDN fallback), together with an explicit
trace of the I/O and logging events each request performs.
-/

namespace MediaProxy

/-- Byte payloads, modelled as lists of byte values. -/
abbrev Bytes := List Nat

/-- Outcome of the `fs.readFile` call on the local media path:
either the stored bytes, a rejection whose error code is `ENOENT`
(resource does not exist), or a rejection with any other error code
(permissions, corruption, ...). -/
inductive LocalReadResult where
  | ok (data : Bytes)
  | enoent
  | ioError (msg : String)
deriving DecidableEq

/-- Outcome of the outbound HTTP exchange with the CDN origin:
a completed exchange with some status and body, a transport/network
error, or expiry of the configured timeout budget. -/
inductive RemoteResult where
  | resp (status : Nat) (data : Bytes)
  | transportError (msg : String)
  | timeout
deriving DecidableEq

/-- The external world a single GET media request interacts with:
what the local store read would yield and what the remote origin
would yield. -/
structure MediaEnv where
  localRead : LocalReadResult
  remote : RemoteResult
deriving DecidableEq

/-- Response bodies: raw bytes, the JSON failure shape with `success`
and `message` fields, or the null body. -/
inductive Body where
  | bytes (data : Bytes)
  | json (success : Bool) (message : String)
  | empty
deriving DecidableEq

/-- An emitted HTTP response of the handler: status code, the headers
the handler itself set, and the body. -/
structure Response where
  status : Nat
  headers : List (String × String)
  body : Body
deriving DecidableEq

/-- Observable side effects of one request, in order of occurrence:
the local-store read attempt, a log line for a non-ENOENT local error,
the remote fetch attempt, and a log line for a remote error. -/
inductive Event where
  | localRead
  | logLocalError (msg : String)
  | remoteFetch
  | logRemoteError (msg : String)
deriving DecidableEq

/-- Does the character sequence `s` start with the sequence `p`? -/
def seqStartsWith : List Char → List Char → Bool
  | [], _ => true
  | _ :: _, [] => false
  | p :: ps, c :: cs => p == c && seqStartsWith ps cs

/-- Does the character sequence `s` contain the sequence `p` as a
contiguous run?  This is the semantics of JavaScript
`String.prototype.includes`. -/
def seqContains (p : List Char) : List Char → Bool
  | [] => seqStartsWith p []
  | c :: cs => seqStartsWith p (c :: cs) || seqContains p cs

/-- Does the character sequence `s` end with the sequence `p`?  This is
the semantics of JavaScript `String.prototype.endsWith`. -/
def seqEndsWith (p s : List Char) : Bool :=
  seqStartsWith p.reverse s.reverse

/-- The filename guard at the top of the GET media handler: the request
is rejected when the filename is empty (or absent, which the route
layer delivers as empty), contains the two-character sequence `..`,
contains `/`, or does not end with `.gif`. -/
def invalidFilename (filename : String) : Bool :=
  filename == "" || seqContains ("..").data filename.data
    || seqContains ("/").data filename.data
    || !(seqEndsWith (".gif").data filename.data)

/-- The three CORS headers the media proxy handlers set. -/
def corsHeaders : List (String × String) :=
  [("Access-Control-Allow-Origin", "*"),
   ("Access-Control-Allow-Methods", "GET, OPTIONS"),
   ("Access-Control-Allow-Headers", "*")]

/-- The full header block the GET handler sets after validation:
CORS headers, content type and immutable cache directive. -/
def mediaHeaders : List (String × String) :=
  corsHeaders ++
    [("Content-Type", "image/gif"),
     ("Cache-Control", "public, max-age=31536000, immutable")]

/-- Timeout budget (milliseconds) configured on the remote fetch. -/
def axiosTimeoutMs : Nat := 15000

/-- The 400 response produced by the filename guard.  It is returned
before the header-setting statements of the handler run, so it carries
no handler-set headers. -/
def invalidResponse : Response :=
  { status := 400, headers := [], body := Body.json false "Invalid filename" }

/-- The 404 response produced when the remote tier yields no bytes. -/
def notFoundResponse : Response :=
  { status := 404, headers := mediaHeaders,
    body := Body.json false "Media not found" }

/-- Model of the `axios.get` call on the CDN URL: with the default
`validateStatus`, a completed exchange with a 2xx status resolves and
any other status rejects; transport errors and expiry of the 15000 ms
timeout budget reject with a message. -/
def axiosGet : RemoteResult → Except String (Nat × Bytes)
  | RemoteResult.resp s d =>
      if 200 ≤ s ∧ s < 300 then Except.ok (s, d)
      else Except.error ("Request failed with status code " ++ toString s)
  | RemoteResult.transportError m => Except.error m
  | RemoteResult.timeout =>
      Except.error ("timeout of " ++ toString axiosTimeoutMs ++ "ms exceeded")

/-- Model of the CDN fallback of the GET handler: the try/catch block
around the remote fetch.  `tr` is the event trace accumulated before
the fetch begins. -/
def remotePhase (r : RemoteResult) (tr : List Event) : Response × List Event :=
  match axiosGet r with
  | Except.ok (s, d) =>
      if s ≠ 200 then
        (notFoundResponse, tr ++ [Event.remoteFetch])
      else
        ({ status := 200, headers := mediaHeaders, body := Body.bytes d },
          tr ++ [Event.remoteFetch])
  | Except.error m =>
      (notFoundResponse, tr ++ [Event.remoteFetch, Event.logRemoteError m])

/-- Model of the GET handler registered for the media route: validate
the filename, try the local store, and on a miss (or non-ENOENT local
error, which is additionally logged) fall back to the remote origin.
Returns the emitted response and the ordered trace of events. -/
def getMediaHandler (filename : String) (env : MediaEnv) :
    Response × List Event :=
  if invalidFilename filename then
    (invalidResponse, [])
  else
    match env.localRead with
    | LocalReadResult.ok data =>
        ({ status := 200, headers := mediaHeaders, body := Body.bytes data },
          [Event.localRead])
    | LocalReadResult.enoent =>
        remotePhase env.remote [Event.localRead]
    | LocalReadResult.ioError msg =>
        remotePhase env.remote [Event.localRead, Event.logLocalError msg]

/-- Model of the OPTIONS handler registered for the media route: it
sets the three CORS headers and answers 204 with a null body, ignoring
the filename entirely and performing no validation or resolution. -/
def optionsMediaHandler (_filename : String) : Response × List Event :=
  ({ status := 204, headers := corsHeaders, body := Body.empty }, [])

/-- Does a local read outcome deliver bytes? -/
def localHit : LocalReadResult → Bool
  | LocalReadResult.ok _ => true
  | LocalReadResult.enoent => false
  | LocalReadResult.ioError _ => false

/-- Does a remote outcome deliver bytes, i.e. is it a completed
exchange with status exactly 200?  Everything else — any other status,
a transport error, or a timeout — is a remote failure. -/
def remoteSuccess : RemoteResult → Bool
  | RemoteResult.resp s _ => s == 200
  | RemoteResult.transportError _ => false
  | RemoteResult.timeout => false

/-! Bridging lemmas: the executable character-sequence checks used by
the validator agree with the corresponding Mathlib list relations. -/

theorem seqStartsWith_iff (p s : List Char) :
    seqStartsWith p s = true ↔ p <+: s := by
  induction p generalizing s with
  | nil => simp [seqStartsWith]
  | cons a as ih =>
    cases s with
    | nil => simp [seqStartsWith]
    | cons b bs => simp [seqStartsWith, ih, List.cons_prefix_cons]

theorem seqContains_iff (p s : List Char) :
    seqContains p s = true ↔ p <:+: s := by
  induction s with
  | nil =>
    cases p with
    | nil => simp [seqContains, seqStartsWith]
    | cons a as => simp [seqContains, seqStartsWith]
  | cons c cs ih =>
    simp [seqContains, seqStartsWith_iff, ih, List.infix_cons_iff]

theorem seqEndsWith_iff (p s : List Char) :
    seqEndsWith p s = true ↔ p <:+ s := by
  rw [seqEndsWith, seqStartsWith_iff, List.reverse_prefix]

theorem invalidFilename_iff (f : String) :
    invalidFilename f = true ↔
      (f = "" ∨ ("..").data <:+: f.data ∨ ("/").data <:+: f.data ∨
        ¬ (".gif").data <:+ f.data) := by
  simp [invalidFilename, seqContains_iff, ← seqEndsWith_iff, or_assoc]

/-! Helper lemmas about the remote phase. -/

theorem remotePhase_headers (r : RemoteResult) (tr : List Event) :
    (remotePhase r tr).1.headers = mediaHeaders := by
  cases hax : axiosGet r with
  | ok p =>
    obtain ⟨s, d⟩ := p
    by_cases hs : s ≠ 200 <;> simp [remotePhase, hax, hs, notFoundResponse]
  | error m => simp [remotePhase, hax, notFoundResponse]

theorem remotePhase_status (r : RemoteResult) (tr : List Event) :
    (remotePhase r tr).1.status = 200 ∨ (remotePhase r tr).1.status = 404 := by
  cases hax : axiosGet r with
  | ok p =>
    obtain ⟨s, d⟩ := p
    by_cases hs : s ≠ 200 <;> simp [remotePhase, hax, hs, notFoundResponse]
  | error m => simp [remotePhase, hax, notFoundResponse]

theorem remotePhase_trace (r : RemoteResult) (tr : List Event) :
    ∃ tl, (remotePhase r tr).2 = tr ++ (Event.remoteFetch :: tl) := by
  cases hax : axiosGet r with
  | ok p =>
    obtain ⟨s, d⟩ := p
    by_cases hs : s ≠ 200 <;> simp [remotePhase, hax, hs]
  | error m => simp [remotePhase, hax]

theorem remotePhase_fst (r : RemoteResult) (tr tr' : List Event) :
    (remotePhase r tr).1 = (remotePhase r tr').1 := by
  cases hax : axiosGet r with
  | ok p =>
    obtain ⟨s, d⟩ := p
    by_cases hs : s ≠ 200 <;> simp [remotePhase, hax, hs]
  | error m => simp [remotePhase, hax]

theorem getMedia_valid_headers (f : String) (env : MediaEnv)
    (h : invalidFilename f = false) :
    (getMediaHandler f env).1.headers = mediaHeaders := by
  cases hl : env.localRead with
  | ok data => simp [getMediaHandler, h, hl]
  | enoent => simp [getMediaHandler, h, hl, remotePhase_headers]
  | ioError msg => simp [getMediaHandler, h, hl, remotePhase_headers]

theorem getMedia_valid_status (f : String) (env : MediaEnv)
    (h : invalidFilename f = false) :
    (getMediaHandler f env).1.status = 200 ∨
      (getMediaHandler f env).1.status = 404 := by
  cases hl : env.localRead with
  | ok data => simp [getMediaHandler, h, hl]
  | enoent => simp [getMediaHandler, h, hl, remotePhase_status]
  | ioError msg => simp [getMediaHandler, h, hl, remotePhase_status]

theorem getMedia_valid_localRead (f : String) (env : MediaEnv)
    (h : invalidFilename f = false) :
    Event.localRead ∈ (getMediaHandler f env).2 := by
  cases hl : env.localRead with
  | ok data => simp [getMediaHandler, h, hl]
  | enoent =>
    obtain ⟨tl, htl⟩ := remotePhase_trace env.remote [Event.localRead]
    simp [getMediaHandler, h, hl, htl]
  | ioError msg =>
    obtain ⟨tl, htl⟩ :=
      remotePhase_trace env.remote [Event.localRead, Event.logLocalError msg]
    simp [getMediaHandler, h, hl, htl]

/-! Claim theorems. -/

/-- C1: the GET media handler responds 400 with body
success := false, message := "Invalid filename" — with no local-store
read and no remote fetch attempted — if and only if the filename is
empty, contains the two-character sequence "..", contains "/", or does
not end with ".gif". -/
theorem getMedia_invalid_iff (f : String) (env : MediaEnv) :
    ((getMediaHandler f env).1.status = 400 ∧
      (getMediaHandler f env).1.body = Body.json false "Invalid filename" ∧
      (getMediaHandler f env).2 = [])
    ↔ (f = "" ∨ ("..").data <:+: f.data ∨ ("/").data <:+: f.data ∨
        ¬ (".gif").data <:+ f.data) := by
  rw [← invalidFilename_iff]
  by_cases h : invalidFilename f = true
  · simp [getMediaHandler, h, invalidResponse]
  · rw [Bool.not_eq_true] at h
    constructor
    · rintro ⟨h400, -, -⟩
      rcases getMedia_valid_status f env h with hs | hs <;> rw [hs] at h400 <;>
        exact absurd h400 (by decide)
    · intro hc
      rw [h] at hc
      exact absurd hc (by decide)

/-- C2 counterexample: for the invalid filename "x" the handler
responds 400, and none of the three CORS headers is present on that
response, refuting the claim that every outcome carries them. -/
theorem corsHeaders_missing_on_400 :
    (getMediaHandler "x"
        ⟨LocalReadResult.enoent, RemoteResult.timeout⟩).1.status = 400 ∧
    ("Access-Control-Allow-Origin", "*") ∉
      (getMediaHandler "x"
        ⟨LocalReadResult.enoent, RemoteResult.timeout⟩).1.headers ∧
    ("Access-Control-Allow-Methods", "GET, OPTIONS") ∉
      (getMediaHandler "x"
        ⟨LocalReadResult.enoent, RemoteResult.timeout⟩).1.headers ∧
    ("Access-Control-Allow-Headers", "*") ∉
      (getMediaHandler "x"
        ⟨LocalReadResult.enoent, RemoteResult.timeout⟩).1.headers := by
  decide

/-- C2 amended: on every GET response of a filename that passes
validation — both the 200 and the 404 outcomes — the three CORS
headers are present; the 400 outcome is emitted before the
header-setting statements and carries none of them. -/
theorem corsHeaders_on_valid (f : String) (env : MediaEnv)
    (h : invalidFilename f = false) :
    ("Access-Control-Allow-Origin", "*") ∈ (getMediaHandler f env).1.headers ∧
    ("Access-Control-Allow-Methods", "GET, OPTIONS") ∈
      (getMediaHandler f env).1.headers ∧
    ("Access-Control-Allow-Headers", "*") ∈
      (getMediaHandler f env).1.headers := by
  rw [getMedia_valid_headers f env h]
  refine ⟨?_, ?_, ?_⟩ <;> simp [mediaHeaders, corsHeaders]

/-- C2 amended, witness: the valid filename "a.gif" with a local miss
and a remote timeout (a 404 outcome) carries the three CORS headers. -/
theorem corsHeaders_on_valid_witness :
    invalidFilename "a.gif" = false ∧
    ("Access-Control-Allow-Origin", "*") ∈
      (getMediaHandler "a.gif"
        ⟨LocalReadResult.enoent, RemoteResult.timeout⟩).1.headers :=
  ⟨by decide,
    (corsHeaders_on_valid "a.gif"
      ⟨LocalReadResult.enoent, RemoteResult.timeout⟩ (by decide)).1⟩

/-- C3: for a filename that passes validation and is present in the
local store, the handler responds 200 with exactly the stored bytes
and the remote origin is never contacted. -/
theorem localHit_serves_stored_bytes (f : String) (data : Bytes)
    (env : MediaEnv) (h : invalidFilename f = false)
    (hl : env.localRead = LocalReadResult.ok data) :
    (getMediaHandler f env).1 =
      { status := 200, headers := mediaHeaders, body := Body.bytes data } ∧
    Event.remoteFetch ∉ (getMediaHandler f env).2 := by
  simp [getMediaHandler, h, hl]

/-- C3 witness: the valid filename "a.gif" with stored bytes [1, 2]
is served locally with those bytes and no remote fetch occurs. -/
theorem localHit_serves_stored_bytes_witness :
    invalidFilename "a.gif" = false ∧
    (getMediaHandler "a.gif"
        ⟨LocalReadResult.ok [1, 2], RemoteResult.timeout⟩).1 =
      { status := 200, headers := mediaHeaders, body := Body.bytes [1, 2] } :=
  ⟨by decide,
    (localHit_serves_stored_bytes "a.gif" [1, 2]
      ⟨LocalReadResult.ok [1, 2], RemoteResult.timeout⟩
      (by decide) rfl).1⟩

/-- C4: for a filename that passes validation, is absent from the
local store, and for which the remote origin answers 200, the handler
responds 200 with the origin's bytes, and the event trace is exactly
one local read followed by exactly one remote fetch. -/
theorem localMiss_remote200 (f : String) (data : Bytes)
    (h : invalidFilename f = false) :
    (getMediaHandler f
        ⟨LocalReadResult.enoent, RemoteResult.resp 200 data⟩).1 =
      { status := 200, headers := mediaHeaders, body := Body.bytes data } ∧
    (getMediaHandler f
        ⟨LocalReadResult.enoent, RemoteResult.resp 200 data⟩).2 =
      [Event.localRead, Event.remoteFetch] := by
  simp [getMediaHandler, h, remotePhase, axiosGet]

/-- C4 witness: the valid filename "a.gif", locally absent, with the
origin answering 200 and bytes [7], yields 200 with [7] and the trace
local read then remote fetch. -/
theorem localMiss_remote200_witness :
    invalidFilename "a.gif" = false ∧
    (getMediaHandler "a.gif"
        ⟨LocalReadResult.enoent, RemoteResult.resp 200 [7]⟩).2 =
      [Event.localRead, Event.remoteFetch] :=
  ⟨by decide, (localMiss_remote200 "a.gif" [7] (by decide)).2⟩

/-- C5: for a validated filename whose local read does not deliver
bytes, every remote failure mode — a completed exchange with status
other than 200, a transport/network error, or expiry of the 15-second
timeout budget — produces the same outcome: 404 with body
success := false, message := "Media not found".  The handler is a
total function, so no exception surfaces to the caller, and the
constant response means the caller cannot distinguish the modes. -/
theorem remoteFailure_collapses_to_404 (f : String) (env : MediaEnv)
    (h : invalidFilename f = false)
    (hl : localHit env.localRead = false)
    (hr : remoteSuccess env.remote = false) :
    (getMediaHandler f env).1 = notFoundResponse := by
  have hphase : ∀ tr, (remotePhase env.remote tr).1 = notFoundResponse := by
    intro tr
    cases henv : env.remote with
    | resp s d =>
      rw [henv] at hr
      simp only [remoteSuccess, beq_eq_false_iff_ne, ne_eq] at hr
      by_cases h2 : 200 ≤ s ∧ s < 300 <;>
        simp [remotePhase, axiosGet, h2, hr]
    | transportError m => simp [remotePhase, axiosGet]
    | timeout => simp [remotePhase, axiosGet]
  cases hlr : env.localRead with
  | ok data => rw [hlr] at hl; simp [localHit] at hl
  | enoent => simp [getMediaHandler, h, hlr, hphase]
  | ioError msg => simp [getMediaHandler, h, hlr, hphase]

/-- C5 witness: the valid filename "a.gif", locally absent, with the
remote fetch timing out, yields the 404 "Media not found" response. -/
theorem remoteFailure_collapses_to_404_witness :
    invalidFilename "a.gif" = false ∧
    (getMediaHandler "a.gif"
        ⟨LocalReadResult.enoent, RemoteResult.timeout⟩).1 = notFoundResponse :=
  ⟨by decide,
    remoteFailure_collapses_to_404 "a.gif"
      ⟨LocalReadResult.enoent, RemoteResult.timeout⟩
      (by decide) (by decide) (by decide)⟩

/-- C6: for a validated filename whose local read fails with an error
other than ENOENT, the handler logs the local error, still attempts
the remote fetch, and emits exactly the response it would emit had the
local file simply been absent — a local I/O error never by itself
produces an error response. -/
theorem localIOError_falls_back (f msg : String) (r : RemoteResult)
    (h : invalidFilename f = false) :
    Event.logLocalError msg ∈
      (getMediaHandler f ⟨LocalReadResult.ioError msg, r⟩).2 ∧
    Event.remoteFetch ∈
      (getMediaHandler f ⟨LocalReadResult.ioError msg, r⟩).2 ∧
    (getMediaHandler f ⟨LocalReadResult.ioError msg, r⟩).1 =
      (getMediaHandler f ⟨LocalReadResult.enoent, r⟩).1 := by
  obtain ⟨tl, htl⟩ :=
    remotePhase_trace r [Event.localRead, Event.logLocalError msg]
  refine ⟨?_, ?_, ?_⟩
  · simp [getMediaHandler, h, htl]
  · simp [getMediaHandler, h, htl]
  · simp only [getMediaHandler, h, Bool.false_eq_true, if_false]
    exact remotePhase_fst r _ _

/-- C6 witness: the valid filename "a.gif" with a local
permission-denied error and a remote timeout logs the local error,
attempts the remote fetch, and answers as for a plain local miss. -/
theorem localIOError_falls_back_witness :
    invalidFilename "a.gif" = false ∧
    Event.remoteFetch ∈
      (getMediaHandler "a.gif"
        ⟨LocalReadResult.ioError "EACCES", RemoteResult.timeout⟩).2 :=
  ⟨by decide,
    (localIOError_falls_back "a.gif" "EACCES" RemoteResult.timeout
      (by decide)).2.1⟩

/-- C7: every GET media request produces exactly one response, whose
status is one of 200, 400 and 404; the handler is a total function of
the request and its environment, so no failure on any path propagates
as an unhandled exception past its boundary. -/
theorem getMedia_status_total (f : String) (env : MediaEnv) :
    (getMediaHandler f env).1.status = 200 ∨
    (getMediaHandler f env).1.status = 400 ∨
    (getMediaHandler f env).1.status = 404 := by
  by_cases h : invalidFilename f = true
  · right; left; simp [getMediaHandler, h, invalidResponse]
  · rw [Bool.not_eq_true] at h
    rcases getMedia_valid_status f env h with hs | hs
    · exact Or.inl hs
    · exact Or.inr (Or.inr hs)

/-- C8: for every requested filename, valid or invalid, the OPTIONS
handler for the media route responds 204 with no body and the three
CORS headers set, performing neither validation nor resolution (its
event trace is empty). -/
theorem optionsAlways204 (f : String) :
    (optionsMediaHandler f).1.status = 204 ∧
    (optionsMediaHandler f).1.body = Body.empty ∧
    ("Access-Control-Allow-Origin", "*") ∈ (optionsMediaHandler f).1.headers ∧
    ("Access-Control-Allow-Methods", "GET, OPTIONS") ∈
      (optionsMediaHandler f).1.headers ∧
    ("Access-Control-Allow-Headers", "*") ∈ (optionsMediaHandler f).1.headers ∧
    (optionsMediaHandler f).2 = [] := by
  refine ⟨rfl, rfl, ?_, ?_, ?_, rfl⟩ <;> simp [optionsMediaHandler, corsHeaders]

/-- C9: for every filename that passes validation, the handler sets
Content-Type image/gif and the immutable Cache-Control directive
before attempting any resolution, so both headers are present on the
404 responses as well as on the 200 responses. -/
theorem contentHeaders_on_valid (f : String) (env : MediaEnv)
    (h : invalidFilename f = false) :
    ("Content-Type", "image/gif") ∈ (getMediaHandler f env).1.headers ∧
    ("Cache-Control", "public, max-age=31536000, immutable") ∈
      (getMediaHandler f env).1.headers := by
  rw [getMedia_valid_headers f env h]
  constructor <;> simp [mediaHeaders, corsHeaders]

/-- C9 witness: the valid filename "a.gif" with a local miss and a
remote transport error — a 404 outcome — carries the Content-Type and
Cache-Control headers. -/
theorem contentHeaders_on_valid_witness :
    invalidFilename "a.gif" = false ∧
    ("Content-Type", "image/gif") ∈
      (getMediaHandler "a.gif"
        ⟨LocalReadResult.enoent,
          RemoteResult.transportError "ECONNREFUSED"⟩).1.headers :=
  ⟨by decide,
    (contentHeaders_on_valid "a.gif"
      ⟨LocalReadResult.enoent, RemoteResult.transportError "ECONNREFUSED"⟩
      (by decide)).1⟩

/-- C10: the bare-extension filename ".gif" passes validation — it is
non-empty, contains no "/" and no "..", and ends with ".gif" — so for
every environment the handler does not answer 400 and proceeds to
resolution, attempting the local read. -/
theorem bareGifExtension_passes :
    invalidFilename ".gif" = false ∧
    ∀ env : MediaEnv,
      (getMediaHandler ".gif" env).1.status ≠ 400 ∧
      Event.localRead ∈ (getMediaHandler ".gif" env).2 := by
  have hv : invalidFilename ".gif" = false := by decide
  refine ⟨hv, fun env => ⟨?_, getMedia_valid_localRead ".gif" env hv⟩⟩
  rcases getMedia_valid_status ".gif" env hv with hs | hs <;> rw [hs] <;> decide

end MediaProxy
